import Mathlib

/-!
Shallow embedding of `src/examples/books_scraper.py` (a scraper for
books.toscrape.com) and proofs about its extraction, aggregation, sorting
and export logic.

Modelling conventions:
* BeautifulSoup documents are modelled by the inductive `Node`: an element
  carries its tag name, its non-class attributes, its (optional) list of
  class tokens, and its children; a text node carries a string.
  `Node.find`/`Node.findAll` model `soup.find`/`soup.find_all` (first /
  all matching descendants in document order, excluding the node itself),
  and `Node.textContent` models the `.text` property.
* Python functions that can raise are embedded with `Option`/`Except`:
  `none`/`.error` means the Python code raises an exception at that point.
* Python `float` values are modelled by `ℚ`; `pyFloat` models `float()`
  applied to plain decimal literals (the only shapes the scraper meets):
  other inputs raise `ValueError`, i.e. give `none`.
* `requests.get` cannot be embedded; `get_page` is modelled by a fetch
  oracle `String → Option Node` passed to the scraping functions; `none`
  is the `None` that `get_page` returns after catching any
  `requests.exceptions.RequestException` (timeout, DNS failure, non-2xx
  status via `raise_for_status`).
* Side effects of the page loop (network fetches, `time.sleep`) are
  recorded as an explicit `Event` trace.
-/

/-- A parsed HTML node: an element with tag name, attributes, optional
class-token list and children, or a bare text node. -/
inductive Node where
  | tag (name : String) (attrs : List (String × String))
      (classes : Option (List String)) (children : List Node)
  | text (s : String)

/-- Attribute lookup with default, modelling BeautifulSoup `el.get(key, default)`
for a plain string attribute. -/
def Node.getAttr (n : Node) (key : String) (default : String) : String :=
  match n with
  | .text _ => default
  | .tag _ attrs _ _ => (attrs.lookup key).getD default

/-- Class list of an element, `none` when the element has no class attribute. -/
def Node.classList : Node → Option (List String)
  | .text _ => none
  | .tag _ _ cs _ => cs

/-- Class lookup with default, modelling `el.get("class", default)`. -/
def Node.getClassAttr (n : Node) (default : List String) : List String :=
  n.classList.getD default

/-- Does a node match a tag name and an optional class filter, as in
`soup.find(name, class_=c)` (the filter requires `c` among the class tokens)? -/
def Node.isMatch (name : String) (classFilter : Option String) : Node → Bool
  | .text _ => false
  | .tag tn _ classes _ =>
    tn == name &&
      match classFilter with
      | none => true
      | some c => (classes.getD []).contains c

mutual
/-- All matching descendants in document order (the node itself excluded),
modelling `soup.find_all(name, class_=c)`. -/
def Node.findAll (name : String) (classFilter : Option String) : Node → List Node
  | .text _ => []
  | .tag _ _ _ children => findAllList name classFilter children

/-- Matching nodes within a forest, in document order (each root before its
descendants, before later siblings). -/
def findAllList (name : String) (classFilter : Option String) : List Node → List Node
  | [] => []
  | c :: rest =>
    (if c.isMatch name classFilter then [c] else []) ++
      Node.findAll name classFilter c ++ findAllList name classFilter rest
end

/-- First matching descendant, modelling `soup.find(name, class_=c)`;
`none` models the Python `None` result. -/
def Node.find (n : Node) (name : String) (classFilter : Option String) : Option Node :=
  (n.findAll name classFilter).head?

mutual
/-- Concatenated text of all descendant text nodes, modelling the `.text`
property of a BeautifulSoup element. -/
def Node.textContent : Node → String
  | .text s => s
  | .tag _ _ _ children => textContentList children

/-- Concatenated text of a forest of nodes. -/
def textContentList : List Node → String
  | [] => ""
  | c :: rest => c.textContent ++ textContentList rest
end

/-- Python `str.strip()`: drop leading and trailing whitespace. -/
def pyStrip (s : String) : String :=
  (((s.toList.dropWhile Char.isWhitespace).reverse.dropWhile Char.isWhitespace).reverse).asString

/-- Python `s.replace(c, "")` for a single-character pattern `c`: remove
every occurrence of that character. -/
def removeChar (c : Char) (s : List Char) : List Char :=
  s.filter (fun d => d != c)

/-- Python `s.replace("../", "")`: remove every (non-overlapping, scanned
left to right) occurrence of the three-character pattern. -/
def dropDotDotSlash : List Char → List Char
  | '.' :: '.' :: '/' :: rest => dropDotDotSlash rest
  | c :: rest => c :: dropDotDotSlash rest
  | [] => []

/-- Numeric value of a string of decimal digits. -/
def digitsToNat (l : List Char) : Nat :=
  l.foldl (fun a c => a * 10 + (c.toNat - 48)) 0

/-- Python `float()` on plain decimal literals (optional sign, digits, at
most one point): the exact decimal value as a rational. Any other input
raises `ValueError` in Python, modelled by `none`. -/
def pyFloat (s : String) : Option ℚ :=
  let cs := (pyStrip s).toList
  let sign : Int := match cs with
    | '-' :: _ => -1
    | _ => 1
  let cs := match cs with
    | '-' :: rest => rest
    | '+' :: rest => rest
    | _ => cs
  match cs.span (fun c => c != '.') with
  | (intPart, []) =>
    if intPart ≠ [] ∧ intPart.all Char.isDigit then
      some (mkRat (sign * digitsToNat intPart) 1)
    else none
  | (intPart, _dot :: fracPart) =>
    if (intPart ≠ [] ∨ fracPart ≠ []) ∧ intPart.all Char.isDigit ∧ fracPart.all Char.isDigit then
      some (mkRat (sign * (digitsToNat intPart * 10 ^ fracPart.length + digitsToNat fracPart))
        (10 ^ fracPart.length))
    else none

/-! Configuration constants of the script. -/

/-- `BASE_URL = "https://books.toscrape.com/"`. -/
def BASE_URL : String := "https://books.toscrape.com/"

/-- `CATALOGUE_URL = BASE_URL + "catalogue/page-{}.html"` applied to a page
number via `.format`. -/
def CATALOGUE_URL (page_number : Int) : String :=
  BASE_URL ++ "catalogue/page-" ++ toString page_number ++ ".html"

/-- `RATING_MAP`: rating word to number. -/
def RATING_MAP : List (String × Nat) :=
  [("One", 1), ("Two", 2), ("Three", 3), ("Four", 4), ("Five", 5)]

/-- `REQUEST_DELAY = 1` second between page requests. -/
def REQUEST_DELAY : Nat := 1

/-- One scraped record, the dictionary built by `extract_book_data`
(keys Title, Price (£), Rating, Availability, URL). -/
structure Book where
  title : String
  price : ℚ
  rating : Nat
  availability : String
  url : String
deriving DecidableEq

/-! The record extractor `extract_book_data`, split into the five
independent field rules of the source (lines 80 to 100). -/

/-- Line 81: `title_element = book_element.find("h3").find("a")`. The
result is `none` when either lookup returns Python `None`; using it then
raises `AttributeError`. -/
def titleElementOf (book_element : Node) : Option Node :=
  match book_element.find "h3" none with
  | none => none
  | some h3 => h3.find "a" none

/-- Lines 85 and 86: text of the `p.price_color` element, stripped, with
fallback `"£0.00"` when the element is missing. -/
def priceTextOf (book_element : Node) : String :=
  match book_element.find "p" (some "price_color") with
  | some price_element => pyStrip price_element.textContent
  | none => "£0.00"

/-- Line 87: `float(price_text.replace("£", "").replace("Â", ""))`;
`none` when `float` raises `ValueError`. -/
def priceOf (book_element : Node) : Option ℚ :=
  pyFloat (removeChar 'Â' (removeChar '£' (priceTextOf book_element).toList)).asString

/-- Lines 90 to 93: rating from the class tokens of the `p.star-rating`
element. `none` models the `AttributeError` raised by
`rating_element.get` when the element is missing. -/
def ratingOf (book_element : Node) : Option Nat :=
  match book_element.find "p" (some "star-rating") with
  | none => none
  | some rating_element =>
    let rating_class := rating_element.getClassAttr ["star-rating", "Zero"]
    let rating_word := if rating_class.length > 1 then rating_class.getD 1 "" else "Zero"
    some ((RATING_MAP.lookup rating_word).getD 0)

/-- Lines 96 and 97: `"In Stock"` when a `p.instock` element is present,
else `"Out of Stock"`. -/
def availabilityOf (book_element : Node) : String :=
  if (book_element.find "p" (some "instock")).isSome then "In Stock" else "Out of Stock"

/-- Line 100: `BASE_URL + "catalogue/" + title_element.get("href", "").replace("../", "")`. -/
def urlOf (title_element : Node) : String :=
  BASE_URL ++ "catalogue/" ++
    (dropDotDotSlash (title_element.getAttr "href" "").toList).asString

/-- `extract_book_data(book_element)` (lines 70 to 108). `none` models an
exception escaping the function: `AttributeError` when the `h3`, its
nested `a`, or the `p.star-rating` element is missing, `ValueError` when
the price text does not parse as a number. -/
def extract_book_data (book_element : Node) : Option Book :=
  match titleElementOf book_element with
  | none => none
  | some title_element =>
    match priceOf book_element with
    | none => none
    | some price =>
      match ratingOf book_element with
      | none => none
      | some rating =>
        some { title := title_element.getAttr "title" "Unknown Title"
               price := price
               rating := rating
               availability := availabilityOf book_element
               url := urlOf title_element }

/-! The page scraper and the aggregator (lines 111 to 160). -/

/-- The URL scraped for a page number (lines 121 to 124): page 1 is the
site root, any other number goes through the catalogue template. -/
def page_url (page_number : Int) : String :=
  if page_number == 1 then BASE_URL else CATALOGUE_URL page_number

/-- Sequence of all optional values, `none` as soon as one entry is `none`:
a Python list comprehension whose body may raise. -/
def allSome {α : Type} : List (Option α) → Option (List α)
  | [] => some []
  | none :: _ => none
  | some a :: rest => (allSome rest).map (a :: ·)

/-- `scrape_page(page_number)` (lines 111 to 135), parameterised by the
fetch oracle standing for `get_page`. A failed fetch yields `some []`
(the early `return []` of line 130); `none` models an extraction
exception escaping the list comprehension of line 135. -/
def scrape_page (fetch : String → Option Node) (page_number : Int) : Option (List Book) :=
  match fetch (page_url page_number) with
  | none => some []
  | some soup =>
    allSome ((soup.findAll "article" (some "product_pod")).map extract_book_data)

/-- Observable side effect of the page loop: one network fetch of a URL,
or one `time.sleep(seconds)`. -/
inductive Event where
  | fetch (url : String)
  | sleep (seconds : Nat)
deriving DecidableEq

/-- Is the event a fetch? -/
def Event.isFetch : Event → Bool
  | .fetch _ => true
  | .sleep _ => false

/-- Is the event a sleep? -/
def Event.isSleep : Event → Bool
  | .fetch _ => false
  | .sleep _ => true

/-- The loop body of `scrape_all_books` over the remaining page numbers,
accumulating records and the event trace. Every `scrape_page` call issues
exactly one `get_page` fetch, recorded before its outcome is inspected;
`.error` models an extraction exception propagating out of the loop, and
carries the events already performed. The sleep of line 158 happens only
when `page < max_pages`. -/
def scrapeAllGo (fetch : String → Option Node) (max_pages : Int) :
    List Int → List Book → List Event → Except (List Event) (List Book × List Event)
  | [], acc, ev => .ok (acc, ev)
  | page :: rest, acc, ev =>
    let ev := ev ++ [Event.fetch (page_url page)]
    match scrape_page fetch page with
    | none => .error ev
    | some books =>
      let ev := if page < max_pages then ev ++ [Event.sleep REQUEST_DELAY] else ev
      scrapeAllGo fetch max_pages rest (acc ++ books) ev

/-- Python `range(lo, hi)` as a list of integers. -/
def pythonRange (lo hi : Int) : List Int :=
  (List.range (hi - lo).toNat).map (fun i : Nat => lo + (i : Int))

/-- `scrape_all_books(max_pages)` (lines 138 to 160): iterate
`range(1, max_pages + 1)`, concatenating each page's records, with a
politeness sleep between consecutive fetches. -/
def scrape_all_books (fetch : String → Option Node) (max_pages : Int) :
    Except (List Event) (List Book × List Event) :=
  scrapeAllGo fetch max_pages (pythonRange 1 (max_pages + 1)) [] []

/-! Sorting and export (lines 167 to 194, 249 to 253). -/

/-- The sort key order of `create_dataframe`: `a` precedes or ties `b`
under `sort_values(by=["Rating", "Price (£)"], ascending=[False, True])`. -/
def bookLE (a b : Book) : Bool :=
  decide (b.rating < a.rating) ||
    (a.rating == b.rating && decide (a.price ≤ b.price))

/-- `create_dataframe(books_data)` (lines 167 to 182): the record sequence
of the DataFrame after `sort_values(by=["Rating", "Price (£)"],
ascending=[False, True])`. A multi-key pandas `sort_values` is a stable
lexicographic sort (`numpy.lexsort`), modelled by a stable merge sort
under `bookLE`. -/
def create_dataframe (books_data : List Book) : List Book :=
  books_data.mergeSort bookLE

/-- One cell of an exported table. -/
inductive Cell where
  | str (s : String)
  | num (q : ℚ)
  | nat (n : Nat)
deriving DecidableEq

/-- An exported tabular file: header row and data rows. -/
structure Table where
  header : List String
  rows : List (List Cell)
deriving DecidableEq

/-- The DataFrame columns, in dictionary insertion order of
`extract_book_data`'s result. -/
def dataframeColumns : List String :=
  ["Title", "Price (£)", "Rating", "Availability", "URL"]

/-- The row a record contributes to either exported file. -/
def bookRow (b : Book) : List Cell :=
  [.str b.title, .num b.price, .nat b.rating, .str b.availability, .str b.url]

/-- `save_to_csv(df, filename)` (lines 185 to 188): `df.to_csv(filename,
index=False)` writes the header and one row per record, all columns of
`df`. -/
def save_to_csv (df : List Book) : Table :=
  { header := dataframeColumns, rows := df.map bookRow }

/-- `save_to_excel(df, filename)` (lines 191 to 194): `df.to_excel(filename,
index=False)` writes the header and one row per record of the very same
DataFrame `df` that `main` (lines 249 to 253) also passes to
`save_to_csv` — no column is dropped anywhere. -/
def save_to_excel (df : List Book) : Table :=
  { header := dataframeColumns, rows := df.map bookRow }

/-- Spec-side variant of the URL rule, for comparison with `urlOf`. The
spec (§4.2 rule 5) reads: strip any LEADING parent-directory traversal
segments from the relative link, then concatenate onto the fixed
catalogue base path. This strips `"../"` only at the front. -/
def stripLeadingDotDotSlash : List Char → List Char
  | '.' :: '.' :: '/' :: rest => stripLeadingDotDotSlash rest
  | cs => cs

/-- Spec-side URL of a record, per the words of the spec. -/
def specUrlOf (title_element : Node) : String :=
  BASE_URL ++ "catalogue/" ++
    (stripLeadingDotDotSlash (title_element.getAttr "href" "").toList).asString

/-! Concrete sample data, used to instantiate the theorems below. -/

/-- A well-formed listing fragment, shaped like one
`article.product_pod` of the live site. -/
def sampleBookNode : Node :=
  .tag "article" [] (some ["product_pod"]) [
    .tag "h3" [] none [
      .tag "a" [("title", "A"), ("href", "../../a_1/index.html")] none [.text "A"]],
    .tag "p" [] (some ["price_color"]) [.text "£51.77"],
    .tag "p" [] (some ["star-rating", "Three"]) [],
    .tag "p" [] (some ["instock", "availability"]) [.text " In stock "]]

/-- The title anchor inside `sampleBookNode`. -/
def sampleTitleElement : Node :=
  .tag "a" [("title", "A"), ("href", "../../a_1/index.html")] none [.text "A"]

/-- The record extracted from `sampleBookNode`. -/
def sampleBook : Book :=
  { title := "A", price := mkRat 5177 100, rating := 3,
    availability := "In Stock",
    url := "https://books.toscrape.com/catalogue/a_1/index.html" }

/-- A parsed page holding a single listing fragment. -/
def okPageNode : Node := .tag "html" [] none [sampleBookNode]

/-- A fetch oracle for which every request succeeds with `okPageNode`. -/
def allOkFetch : String → Option Node := fun _ => some okPageNode

/-- A fetch oracle failing at the transport level exactly on page 2. -/
def failP2Fetch : String → Option Node :=
  fun u => if u == page_url 2 then none else some okPageNode

/-- A fragment with no price element. -/
def noPriceFrag : Node :=
  .tag "article" [] (some ["product_pod"]) []

/-- A fragment whose price text is exactly `"£0.00"`. -/
def zeroPriceFrag : Node :=
  .tag "article" [] (some ["product_pod"]) [
    .tag "p" [] (some ["price_color"]) [.text "£0.00"]]

/-- A fragment whose rating element carries the given class tokens. -/
def ratingFrag (toks : List String) : Node :=
  .tag "article" [] (some ["product_pod"]) [.tag "p" [] (some toks) []]

/-- A fragment whose relative link holds an interior (non-leading)
parent-directory traversal segment. -/
def trickyHrefFrag : Node :=
  .tag "article" [] (some ["product_pod"]) [
    .tag "h3" [] none [.tag "a" [("title", "T"), ("href", "a/../b.html")] none []],
    .tag "p" [] (some ["price_color"]) [.text "£1.00"],
    .tag "p" [] (some ["star-rating", "One"]) []]

/-- The title anchor inside `trickyHrefFrag`. -/
def trickyTitleElement : Node :=
  .tag "a" [("title", "T"), ("href", "a/../b.html")] none []

/-- The record extracted from `trickyHrefFrag`. -/
def trickyBook : Book :=
  { title := "T", price := 1, rating := 1, availability := "Out of Stock",
    url := "https://books.toscrape.com/catalogue/a/b.html" }

/-! Helper lemmas. -/

/-- The sort key order is total. -/
theorem bookLE_total (a b : Book) : (bookLE a b || bookLE b a) = true := by
  simp only [bookLE, Bool.or_eq_true, Bool.and_eq_true, decide_eq_true_eq, beq_iff_eq]
  rcases Nat.lt_trichotomy a.rating b.rating with h | h | h
  · exact Or.inr (Or.inl h)
  · rcases le_total a.price b.price with hp | hp
    · exact Or.inl (Or.inr ⟨h, hp⟩)
    · exact Or.inr (Or.inr ⟨h.symm, hp⟩)
  · exact Or.inl (Or.inl h)

/-- The sort key order is transitive. -/
theorem bookLE_trans (a b c : Book) (hab : bookLE a b = true) (hbc : bookLE b c = true) :
    bookLE a c = true := by
  simp only [bookLE, Bool.or_eq_true, Bool.and_eq_true, decide_eq_true_eq, beq_iff_eq] at *
  rcases hab with h1 | ⟨h1, h1p⟩ <;> rcases hbc with h2 | ⟨h2, h2p⟩
  · exact Or.inl (by omega)
  · exact Or.inl (by omega)
  · exact Or.inl (by omega)
  · exact Or.inr ⟨h1.trans h2, h1p.trans h2p⟩

/-- Records tied on both sort keys compare `bookLE` in both directions. -/
theorem bookLE_of_tie {a b : Book} (hr : a.rating = b.rating) (hp : a.price = b.price) :
    bookLE a b = true := by
  simp only [bookLE, Bool.or_eq_true, Bool.and_eq_true, decide_eq_true_eq, beq_iff_eq]
  exact Or.inr ⟨hr, le_of_eq hp⟩

/-- When every remaining page scrapes without an exception, the loop body
returns all accumulated records in page order, and the trace appends one
fetch per page with a sleep after it exactly when the page is not the
last one requested. -/
theorem scrapeAllGo_ok (fetch : String → Option Node) (mp : Int)
    (pages : Int → List Book) :
    ∀ (ps : List Int) (acc : List Book) (ev : List Event),
    (∀ p ∈ ps, scrape_page fetch p = some (pages p)) →
    scrapeAllGo fetch mp ps acc ev =
      .ok (acc ++ (ps.map pages).flatten,
        ev ++ ps.flatMap (fun p =>
          Event.fetch (page_url p) ::
            (if p < mp then [Event.sleep REQUEST_DELAY] else [])))
  | [], acc, ev, _ => by simp [scrapeAllGo]
  | p :: rest, acc, ev, hp => by
    have h := hp p (by simp)
    rw [scrapeAllGo, h]
    simp only
    rw [scrapeAllGo_ok fetch mp pages rest _ _ (fun q hq => hp q (by simp [hq]))]
    by_cases hc : p < mp <;>
      simp [hc, List.flatMap_cons, List.flatten_cons, List.append_assoc]

/-- `range(1, mp + 1)` written over `List.range`. -/
theorem pythonRange_one (mp : Int) :
    pythonRange 1 (mp + 1) = (List.range mp.toNat).map (fun i : Nat => 1 + (i : Int)) := by
  have h : mp + 1 - 1 = mp := by omega
  rw [pythonRange, h]

/-- Bounds of membership in `range(1, mp + 1)`. -/
theorem mem_pythonRange_one {mp p : Int} (h : p ∈ pythonRange 1 (mp + 1)) :
    1 ≤ p ∧ p ≤ mp := by
  rw [pythonRange_one] at h
  obtain ⟨i, hi, rfl⟩ := List.mem_map.mp h
  rw [List.mem_range] at hi
  omega

/-- With at least one page, the page list splits off its last page `mp`. -/
theorem pythonRange_one_concat {mp : Int} (h : 1 ≤ mp) :
    pythonRange 1 (mp + 1) = pythonRange 1 mp ++ [mp] := by
  obtain ⟨k, rfl⟩ : ∃ k : Int, mp = k + 1 := ⟨mp - 1, by omega⟩
  have hk : (k + 1).toNat = k.toNat + 1 := by omega
  rw [pythonRange_one, pythonRange_one, hk, List.range_succ, List.map_append]
  congr 1
  simp only [List.map_cons, List.map_nil]
  congr 1
  omega

/-- A page loop trace is the fetches interspersed with single sleeps when
the sleep condition holds everywhere but at the last page. -/
theorem flatMap_eq_intersperse (cond : Int → Prop) [DecidablePred cond] (f : Int → String) :
    ∀ (ps : List Int), (∀ p ∈ ps.dropLast, cond p) →
    (∀ p, ps.getLast? = some p → ¬ cond p) →
    ps.flatMap (fun p => Event.fetch (f p) ::
      (if cond p then [Event.sleep REQUEST_DELAY] else [])) =
    List.intersperse (Event.sleep REQUEST_DELAY) (ps.map (fun p => Event.fetch (f p)))
  | [], _, _ => by simp
  | [p], _, hlast => by
    have : ¬ cond p := hlast p (by simp)
    simp [this]
  | p :: q :: rest, hdrop, hlast => by
    have hp : cond p := hdrop p (by rw [List.dropLast_cons₂]; exact List.mem_cons_self p _)
    have hd : ∀ r ∈ (q :: rest).dropLast, cond r := by
      intro r hr
      apply hdrop
      rw [List.dropLast_cons₂]
      exact List.mem_cons_of_mem p hr
    have hl : ∀ r, (q :: rest).getLast? = some r → ¬ cond r := by
      intro r hr
      apply hlast
      rw [List.getLast?_cons_cons]
      exact hr
    have ih := flatMap_eq_intersperse cond f (q :: rest) hd hl
    simp only [List.flatMap_cons, List.map_cons] at ih ⊢
    rw [List.intersperse_cons_cons, ← ih]
    simp [hp]

/-- Counting fetches in a page loop trace: one per page. -/
theorem countP_isFetch_flatMap (cond : Int → Prop) [DecidablePred cond] (f : Int → String)
    (ps : List Int) :
    (ps.flatMap (fun p => Event.fetch (f p) ::
      (if cond p then [Event.sleep REQUEST_DELAY] else []))).countP Event.isFetch =
    ps.length := by
  induction ps with
  | nil => simp
  | cons p rest ih =>
    rw [List.flatMap_cons, List.countP_append, ih]
    by_cases hc : cond p <;>
      · simp [hc, List.countP_cons, Event.isFetch]
        try omega

/-- Counting sleeps in a page loop trace: one per page meeting the sleep
condition. -/
theorem countP_isSleep_flatMap (cond : Int → Prop) [DecidablePred cond] (f : Int → String)
    (ps : List Int) :
    (ps.flatMap (fun p => Event.fetch (f p) ::
      (if cond p then [Event.sleep REQUEST_DELAY] else []))).countP Event.isSleep =
    (ps.filter (fun p => decide (cond p))).length := by
  induction ps with
  | nil => simp
  | cons p rest ih =>
    rw [List.flatMap_cons, List.countP_append, ih]
    by_cases hc : cond p <;>
      · simp [hc, List.countP_cons, Event.isSleep, List.filter_cons]
        try omega

/-- The pages strictly below the last one are all but one of the range. -/
theorem filter_lt_pythonRange {mp : Int} (h : 1 ≤ mp) :
    (pythonRange 1 (mp + 1)).filter (fun p => decide (p < mp)) = pythonRange 1 mp := by
  rw [pythonRange_one_concat h]
  rw [List.filter_append]
  have hlast : (List.filter (fun p => decide (p < mp)) [mp]) = [] := by
    simp
  rw [hlast, List.append_nil]
  apply List.filter_eq_self.mpr
  intro p hp
  have : mp = (mp - 1) + 1 := by omega
  rw [this] at hp
  have := mem_pythonRange_one hp
  simp only [decide_eq_true_eq]
  omega

/-- Length of a Python integer range. -/
theorem length_pythonRange (lo hi : Int) :
    (pythonRange lo hi).length = (hi - lo).toNat := by
  rw [pythonRange, List.length_map, List.length_range]

/-- Value of `extract_book_data` when the three failure points pass: the
five dictionary fields, each from its own rule. -/
theorem extract_book_data_eq (b te : Node) (p : ℚ) (r : Nat)
    (hte : titleElementOf b = some te) (hp : priceOf b = some p)
    (hr : ratingOf b = some r) :
    extract_book_data b =
      some { title := te.getAttr "title" "Unknown Title", price := p, rating := r,
             availability := availabilityOf b, url := urlOf te } := by
  simp only [extract_book_data, hte, hp, hr]

/-- A word outside the five-entry table has no `RATING_MAP` entry. -/
theorem RATING_MAP_lookup_eq_none {w : String}
    (h : w ∉ ["One", "Two", "Three", "Four", "Five"]) :
    RATING_MAP.lookup w = none := by
  simp only [List.mem_cons, List.not_mem_nil, or_false, not_or] at h
  obtain ⟨h1, h2, h3, h4, h5⟩ := h
  have e1 : (w == "One") = false := beq_eq_false_iff_ne.mpr h1
  have e2 : (w == "Two") = false := beq_eq_false_iff_ne.mpr h2
  have e3 : (w == "Three") = false := beq_eq_false_iff_ne.mpr h3
  have e4 : (w == "Four") = false := beq_eq_false_iff_ne.mpr h4
  have e5 : (w == "Five") = false := beq_eq_false_iff_ne.mpr h5
  simp [RATING_MAP, List.lookup, e1, e2, e3, e4, e5]

/-! Claim theorems. -/

/-- C1, counterexample: extraction is not a total function of the
fragment. On a listing fragment with no nested `h3 → a` title element,
`extract_book_data` raises `AttributeError` (modelled by `none`) instead
of resolving a fallback. -/
theorem C1_counterexample :
    extract_book_data (Node.tag "article" [] (some ["product_pod"]) []) = none := rfl

/-- C1, amended: for every listing-item fragment that has the nested
title link (`h3` containing an `a`) and a star-rating element, and whose
price text parses as a decimal number, `extract_book_data` returns a
BookRecord without raising; the title attribute, the href attribute, the
class tokens and the price/availability elements resolve via their
defined fallbacks when absent. -/
theorem C1_extract_total_on_wellformed (b te : Node) (p : ℚ) (r : Nat)
    (hte : titleElementOf b = some te) (hp : priceOf b = some p)
    (hr : ratingOf b = some r) :
    extract_book_data b =
      some { title := te.getAttr "title" "Unknown Title", price := p, rating := r,
             availability := availabilityOf b, url := urlOf te } :=
  extract_book_data_eq b te p r hte hp hr

/-- C1, witness: the amended theorem applied to a concrete well-formed
fragment. -/
theorem C1_witness : extract_book_data sampleBookNode = some sampleBook :=
  C1_extract_total_on_wellformed sampleBookNode sampleTitleElement
    (mkRat 5177 100) 3 rfl rfl rfl

/-- C4: when the rating element carries class tokens
`["star-rating", "Three"]` the extracted rating is 3; with
`["star-rating"]` alone it is 0; and with any second token outside the
five-word table it is 0. -/
theorem C4_rating_token_table (b el : Node)
    (h : b.find "p" (some "star-rating") = some el) :
    (el.classList = some ["star-rating", "Three"] → ratingOf b = some 3) ∧
    (el.classList = some ["star-rating"] → ratingOf b = some 0) ∧
    (∀ w, w ∉ ["One", "Two", "Three", "Four", "Five"] →
      el.classList = some ["star-rating", w] → ratingOf b = some 0) := by
  refine ⟨?_, ?_, ?_⟩
  · intro hc
    simp [ratingOf, h, Node.getClassAttr, hc, RATING_MAP]
    rfl
  · intro hc
    simp [ratingOf, h, Node.getClassAttr, hc, RATING_MAP]
    rfl
  · intro w hw hc
    simp [ratingOf, h, Node.getClassAttr, hc, RATING_MAP_lookup_eq_none hw]

/-- C4, witness: the three parts of the claim at concrete fragments. -/
theorem C4_witness :
    ratingOf (ratingFrag ["star-rating", "Three"]) = some 3 ∧
    ratingOf (ratingFrag ["star-rating"]) = some 0 ∧
    ratingOf (ratingFrag ["star-rating", "Six"]) = some 0 :=
  ⟨(C4_rating_token_table (ratingFrag ["star-rating", "Three"])
      (.tag "p" [] (some ["star-rating", "Three"]) []) rfl).1 rfl,
   (C4_rating_token_table (ratingFrag ["star-rating"])
      (.tag "p" [] (some ["star-rating"]) []) rfl).2.1 rfl,
   (C4_rating_token_table (ratingFrag ["star-rating", "Six"])
      (.tag "p" [] (some ["star-rating", "Six"]) []) rfl).2.2 "Six" (by decide) rfl⟩

/-- C5: a fragment with no price element, or whose price text is exactly
`"£0.00"`, extracts price 0 without raising. -/
theorem C5_price_fallback (b : Node) :
    (b.find "p" (some "price_color") = none → priceOf b = some 0) ∧
    (∀ el, b.find "p" (some "price_color") = some el →
      pyStrip el.textContent = "£0.00" → priceOf b = some 0) := by
  constructor
  · intro h
    simp only [priceOf, priceTextOf, h]
    rfl
  · intro el h htxt
    simp only [priceOf, priceTextOf, h, htxt]
    rfl

/-- C5, witness: both price fallbacks at concrete fragments. -/
theorem C5_witness : priceOf noPriceFrag = some 0 ∧ priceOf zeroPriceFrag = some 0 :=
  ⟨(C5_price_fallback noPriceFrag).1 rfl,
   (C5_price_fallback zeroPriceFrag).2
     (.tag "p" [] (some ["price_color"]) [.text "£0.00"]) rfl rfl⟩

/-- C9, counterexample: the code removes every occurrence of `"../"` from
the relative link, not only the leading ones. On href `"a/../b.html"`
the extracted url is the base plus `"a/b.html"`, while the spec's
leading-only strip keeps `"a/../b.html"`. -/
theorem C9_counterexample :
    (extract_book_data trickyHrefFrag).map Book.url =
      some "https://books.toscrape.com/catalogue/a/b.html" ∧
    specUrlOf trickyTitleElement =
      "https://books.toscrape.com/catalogue/a/../b.html" := ⟨rfl, rfl⟩

/-- C9, amended: for every fragment from which a record is extracted, the
url equals the fixed catalogue base path concatenated with the title
element's relative link attribute after removing every occurrence of
`"../"` (not only leading ones), with the link treated as the empty
string when the attribute is absent. -/
theorem C9_url_rule (b te : Node) (bk : Book)
    (hte : titleElementOf b = some te) (hbk : extract_book_data b = some bk) :
    bk.url = BASE_URL ++ "catalogue/" ++
      (dropDotDotSlash (te.getAttr "href" "").toList).asString := by
  cases hp : priceOf b with
  | none => simp [extract_book_data, hte, hp] at hbk
  | some p =>
    cases hr : ratingOf b with
    | none => simp [extract_book_data, hte, hp, hr] at hbk
    | some r =>
      rw [extract_book_data_eq b te p r hte hp hr] at hbk
      cases hbk
      rfl

/-- C9, witness: the amended url rule at the fragment with an interior
traversal segment. -/
theorem C9_witness :
    trickyBook.url = BASE_URL ++ "catalogue/" ++
      (dropDotDotSlash (trickyTitleElement.getAttr "href" "").toList).asString :=
  C9_url_rule trickyHrefFrag trickyTitleElement trickyBook rfl rfl

/-- C10: for every `maxPages ≤ 0` the page loop `range(1, maxPages + 1)`
is empty, so `scrape_all_books` returns no records, performs no fetch and
no sleep, and raises nothing. -/
theorem C10_nonpositive_pages (fetch : String → Option Node) (max_pages : Int)
    (h : max_pages ≤ 0) :
    scrape_all_books fetch max_pages = .ok ([], []) := by
  have hempty : pythonRange 1 (max_pages + 1) = [] := by
    rw [pythonRange_one]
    have h0 : max_pages.toNat = 0 := by omega
    rw [h0]
    rfl
  rw [scrape_all_books, hempty]
  rfl

/-- C10, witness: a run with a negative page bound. -/
theorem C10_witness : scrape_all_books allOkFetch (-2) = .ok ([], []) :=
  C10_nonpositive_pages allOkFetch (-2) (by norm_num)

/-- C3: when the page-2 fetch fails at the transport level in a 3-page
run, page 2 contributes zero records, no exception propagates (the
result is `.ok`), and the records are exactly those of page 1 followed
by those of page 3. -/
theorem C3_fetch_failure_page2 (fetch : String → Option Node) (p1 p3 : List Book)
    (h1 : scrape_page fetch 1 = some p1)
    (h2 : fetch (page_url 2) = none)
    (h3 : scrape_page fetch 3 = some p3) :
    ∃ ev, scrape_all_books fetch 3 = .ok (p1 ++ p3, ev) := by
  have h2p : scrape_page fetch 2 = some [] := by
    rw [scrape_page, h2]
  have hpages : ∀ p ∈ ([1, 2, 3] : List Int),
      scrape_page fetch p =
        some ((fun q : Int => if q = 1 then p1 else if q = 3 then p3 else []) p) := by
    intro p hp
    simp only [List.mem_cons, List.not_mem_nil, or_false] at hp
    rcases hp with rfl | rfl | rfl
    · simpa using h1
    · simpa using h2p
    · simpa using h3
  have hgo := scrapeAllGo_ok fetch 3
    (fun q : Int => if q = 1 then p1 else if q = 3 then p3 else []) [1, 2, 3] [] [] hpages
  refine ⟨[([1, 2, 3] : List Int).flatMap (fun p => Event.fetch (page_url p) ::
    (if p < 3 then [Event.sleep REQUEST_DELAY] else []))].flatten, ?_⟩
  rw [scrape_all_books, show pythonRange 1 (3 + 1) = [1, 2, 3] from rfl, hgo]
  simp

/-- C3, witness: a concrete oracle failing exactly on page 2 yields the
page-1 and page-3 records. -/
theorem C3_witness :
    ∃ ev, scrape_all_books failP2Fetch 3 = .ok ([sampleBook] ++ [sampleBook], ev) :=
  C3_fetch_failure_page2 failP2Fetch [sampleBook] [sampleBook] rfl rfl rfl

/-- C6: for every `maxPages ≥ 1` a run in which every page scrapes
without an extraction error issues exactly `maxPages` fetches, of pages
1 through `maxPages` in order, with exactly one fixed-delay sleep
between consecutive fetches and none after the last: the trace is the
fetch sequence interspersed with single sleeps, so it has `maxPages`
fetches and `maxPages - 1` sleeps. -/
theorem C6_fetch_and_sleep_schedule (fetch : String → Option Node) (max_pages : Int)
    (pages : Int → List Book) (hmp : 1 ≤ max_pages)
    (hp : ∀ p, 1 ≤ p → p ≤ max_pages → scrape_page fetch p = some (pages p)) :
    ∃ books ev, scrape_all_books fetch max_pages = .ok (books, ev) ∧
      ev = List.intersperse (Event.sleep REQUEST_DELAY)
        ((pythonRange 1 (max_pages + 1)).map (fun p => Event.fetch (page_url p))) ∧
      ev.countP Event.isFetch = max_pages.toNat ∧
      ev.countP Event.isSleep = max_pages.toNat - 1 := by
  have hgo := scrapeAllGo_ok fetch max_pages pages (pythonRange 1 (max_pages + 1)) [] []
    (fun p hps => hp p (mem_pythonRange_one hps).1 (mem_pythonRange_one hps).2)
  simp only [List.nil_append] at hgo
  have hdrop : ∀ p ∈ (pythonRange 1 (max_pages + 1)).dropLast, p < max_pages := by
    intro p hps
    rw [pythonRange_one_concat hmp, List.dropLast_concat] at hps
    obtain ⟨k, rfl⟩ : ∃ k : Int, max_pages = k + 1 := ⟨max_pages - 1, by omega⟩
    have := mem_pythonRange_one hps
    omega
  have hlast : ∀ p : Int, (pythonRange 1 (max_pages + 1)).getLast? = some p →
      ¬ p < max_pages := by
    intro p hps
    rw [pythonRange_one_concat hmp, List.getLast?_concat] at hps
    injection hps with hps
    omega
  refine ⟨(List.map pages (pythonRange 1 (max_pages + 1))).flatten,
    (pythonRange 1 (max_pages + 1)).flatMap (fun p => Event.fetch (page_url p) ::
      (if p < max_pages then [Event.sleep REQUEST_DELAY] else [])), ?_, ?_, ?_, ?_⟩
  · rw [scrape_all_books]
    exact hgo
  · exact flatMap_eq_intersperse (fun p => p < max_pages) page_url
      (pythonRange 1 (max_pages + 1)) hdrop hlast
  · rw [countP_isFetch_flatMap (fun p => p < max_pages) page_url, length_pythonRange]
    congr 1
    omega
  · rw [countP_isSleep_flatMap (fun p => p < max_pages) page_url,
      filter_lt_pythonRange hmp, length_pythonRange]
    omega

/-- C6, witness: a 3-page run with an always-succeeding oracle fetches 3
times and sleeps 2 times. -/
theorem C6_witness :
    ∃ books ev, scrape_all_books allOkFetch 3 = .ok (books, ev) ∧
      ev = List.intersperse (Event.sleep REQUEST_DELAY)
        ((pythonRange 1 (3 + 1)).map (fun p => Event.fetch (page_url p))) ∧
      ev.countP Event.isFetch = 3 ∧
      ev.countP Event.isSleep = 2 :=
  C6_fetch_and_sleep_schedule allOkFetch 3 (fun _ => [sampleBook]) (by norm_num)
    (fun p _ _ => rfl)

/-- C2: for every `maxPages ≥ 1`, the aggregation returns the
concatenation of all pages' records in page order, and the sort applied
by `create_dataframe` to that concatenation is a permutation of it,
ordered by rating descending then price ascending, with records tied on
both keys keeping their original relative (page-concatenation) order. -/
theorem C2_global_stable_sort (fetch : String → Option Node) (max_pages : Int)
    (pages : Int → List Book) (_hmp : 1 ≤ max_pages)
    (hp : ∀ p, 1 ≤ p → p ≤ max_pages → scrape_page fetch p = some (pages p)) :
    ∃ ev, scrape_all_books fetch max_pages =
        .ok (((pythonRange 1 (max_pages + 1)).map pages).flatten, ev) ∧
      (create_dataframe (((pythonRange 1 (max_pages + 1)).map pages).flatten)).Perm
        (((pythonRange 1 (max_pages + 1)).map pages).flatten) ∧
      List.Pairwise (fun a b => bookLE a b = true)
        (create_dataframe (((pythonRange 1 (max_pages + 1)).map pages).flatten)) ∧
      (∀ a b : Book, a.rating = b.rating → a.price = b.price →
        [a, b].Sublist (((pythonRange 1 (max_pages + 1)).map pages).flatten) →
        [a, b].Sublist
          (create_dataframe (((pythonRange 1 (max_pages + 1)).map pages).flatten))) := by
  have hgo := scrapeAllGo_ok fetch max_pages pages (pythonRange 1 (max_pages + 1)) [] []
    (fun p hps => hp p (mem_pythonRange_one hps).1 (mem_pythonRange_one hps).2)
  simp only [List.nil_append] at hgo
  refine ⟨(pythonRange 1 (max_pages + 1)).flatMap (fun p => Event.fetch (page_url p) ::
      (if p < max_pages then [Event.sleep REQUEST_DELAY] else [])), ?_, ?_, ?_, ?_⟩
  · rw [scrape_all_books]
    exact hgo
  · exact List.mergeSort_perm _ _
  · exact List.sorted_mergeSort bookLE_trans bookLE_total _
  · intro a b hr hpr hsub
    have hpw : List.Pairwise (fun x y => bookLE x y = true) [a, b] := by
      refine List.Pairwise.cons ?_ (List.pairwise_singleton _ _)
      intro y hy
      rw [List.mem_singleton] at hy
      subst hy
      exact bookLE_of_tie hr hpr
    exact List.sublist_mergeSort bookLE_trans bookLE_total hpw hsub

/-- C2, witness: a concrete 3-page run, whose concatenation the sort
permutes, orders and keeps stable. -/
theorem C2_witness :
    ∃ ev, scrape_all_books allOkFetch 3 =
        .ok ([sampleBook, sampleBook, sampleBook], ev) ∧
      (create_dataframe [sampleBook, sampleBook, sampleBook]).Perm
        [sampleBook, sampleBook, sampleBook] ∧
      List.Pairwise (fun a b => bookLE a b = true)
        (create_dataframe [sampleBook, sampleBook, sampleBook]) ∧
      (∀ a b : Book, a.rating = b.rating → a.price = b.price →
        [a, b].Sublist [sampleBook, sampleBook, sampleBook] →
        [a, b].Sublist (create_dataframe [sampleBook, sampleBook, sampleBook])) :=
  C2_global_stable_sort allOkFetch 3 (fun _ => [sampleBook]) (by norm_num)
    (fun p _ _ => rfl)

/-- C8: the global sort by (rating descending, price ascending) is
idempotent: on a record sequence already sorted by those keys,
`create_dataframe` returns its input unchanged, element for element. -/
theorem C8_sort_idempotent (l : List Book)
    (h : List.Pairwise (fun a b => bookLE a b = true) l) :
    create_dataframe l = l :=
  List.mergeSort_of_sorted h

/-- C8, witness: a concrete already-sorted sequence is returned
unchanged. -/
theorem C8_witness :
    create_dataframe [
      { title := "B", price := 5, rating := 5, availability := "Out of Stock",
        url := "https://books.toscrape.com/catalogue/b/index.html" },
      { title := "A", price := 10, rating := 5, availability := "In Stock",
        url := "https://books.toscrape.com/catalogue/a/index.html" },
      sampleBook] = [
      { title := "B", price := 5, rating := 5, availability := "Out of Stock",
        url := "https://books.toscrape.com/catalogue/b/index.html" },
      { title := "A", price := 10, rating := 5, availability := "In Stock",
        url := "https://books.toscrape.com/catalogue/a/index.html" },
      sampleBook] :=
  C8_sort_idempotent _ (by decide)

/-- C7, counterexample: the spreadsheet-format file does not omit the
Availability and URL columns; `save_to_excel` writes the same DataFrame
as `save_to_csv`, with all five columns and the availability and url
cells present in each row. -/
theorem C7_counterexample :
    (save_to_excel (create_dataframe [sampleBook])).header =
        ["Title", "Price (£)", "Rating", "Availability", "URL"] ∧
    "Availability" ∈ (save_to_excel (create_dataframe [sampleBook])).header ∧
    "URL" ∈ (save_to_excel (create_dataframe [sampleBook])).header := by
  have h1 : create_dataframe [sampleBook] = [sampleBook] :=
    List.mergeSort_of_sorted (List.pairwise_singleton _ _)
  rw [h1]
  exact ⟨rfl, by simp [save_to_excel, dataframeColumns], by simp [save_to_excel, dataframeColumns]⟩

/-- C7, amended: each run exports two tabular files from the same record
sequence; the comma-separated-values file and the spreadsheet-format
file both have one row per record with the full column set
{Title, Price, Rating, Availability, URL} — no column is omitted in the
spreadsheet file. -/
theorem C7_two_files_same_columns (df : List Book) :
    (save_to_csv df).header = dataframeColumns ∧
    (save_to_excel df).header = dataframeColumns ∧
    (save_to_csv df).rows.length = df.length ∧
    (save_to_excel df).rows = (save_to_csv df).rows ∧
    ∀ row ∈ (save_to_excel df).rows, row.length = dataframeColumns.length := by
  refine ⟨rfl, rfl, ?_, rfl, ?_⟩
  · simp [save_to_csv]
  · intro row hrow
    simp only [save_to_excel, List.mem_map] at hrow
    obtain ⟨b, _, rfl⟩ := hrow
    rfl

/-- C7, witness: the amended export property at a concrete record
sequence. -/
theorem C7_witness :
    (save_to_csv [sampleBook]).header = dataframeColumns ∧
    (save_to_excel [sampleBook]).header = dataframeColumns ∧
    (save_to_csv [sampleBook]).rows.length = [sampleBook].length ∧
    (save_to_excel [sampleBook]).rows = (save_to_csv [sampleBook]).rows ∧
    ∀ row ∈ (save_to_excel [sampleBook]).rows, row.length = dataframeColumns.length :=
  C7_two_files_same_columns [sampleBook]
